import Mathlib

/-!
Verification of the subscription / polling-loop core of `bot.py`
(crypto-price-tracker-telegram-bot).

The embedding models:
* the pure formatting helpers `format_large_number`, `format_small_number`,
  `escape_markdown` (numbers as exact rationals; CPython renders binary
  doubles, but every branch threshold and every value appearing in a claim
  is exactly representable, so the rational model agrees with the source
  on everything the claims mention);
* the `PriceTracker` state (the five parallel dicts, keyed by chat id and
  contract address) and its `start_tracking` / `stop_tracking` operations;
* one polling loop (`_track_price`) as a function of the per-iteration
  environment outcomes (fetch result, send results, cancellation points),
  mirroring the source's `try`/`except` structure.  `asyncio` cancellation
  is cooperative: `Task.cancel` makes the next `await` raise
  `CancelledError`, which (CPython >= 3.8) is a `BaseException`, so neither
  `except (ValueError, TypeError)` nor `except Exception` catches it.
-/

/-- Fuel-based decimal rendering of a natural number (most significant digit
first), mirroring how CPython prints the integer part of a fixed-point
format.  Fuel `m + 1` always suffices. -/
def natChars : Nat → Nat → List Char
  | 0, _ => []
  | fuel + 1, m =>
    if m < 10 then [Nat.digitChar m]
    else natChars fuel (m / 10) ++ [Nat.digitChar (m % 10)]

def natToChars (m : Nat) : List Char := natChars (m + 1) m

/-- The last `d` decimal digits of `m`, zero padded to exactly `d`
characters: the fraction part of a fixed-point format with `d` decimals. -/
def natDigitsPadded : Nat → Nat → List Char
  | _, 0 => []
  | m, d + 1 => natDigitsPadded (m / 10) d ++ [Nat.digitChar (m % 10)]

/-- Round to the nearest integer, ties to even: the rounding CPython's
`format(x, '.df')` applies to the decimal expansion of the value.  (No value
appearing in any claim is a tie.) -/
def roundHalfEven (x : ℚ) : ℤ :=
  let n := ⌊x⌋
  if x - n < 1 / 2 then n
  else if 1 / 2 < x - n then n + 1
  else if n % 2 = 0 then n else n + 1

/-- The digit string of a fixed-point format, for a scaled magnitude
`m = round(|x| * 10^d)`: integer part, then `.` and exactly `d` fraction
digits (no dot when `d = 0`). -/
def fmtDigits (m : Nat) : Nat → List Char
  | 0 => natToChars m
  | e + 1 => natToChars (m / 10 ^ (e + 1)) ++ '.' :: natDigitsPadded (m % 10 ^ (e + 1)) (e + 1)

/-- Python `f"{q:.df}"`: fixed-point with `d` decimals, `-` sign exactly for
negative inputs. -/
def fmtFixed (q : ℚ) (d : Nat) : String :=
  ⟨(if q < 0 then ['-'] else []) ++ fmtDigits (roundHalfEven (|q| * (10 : ℚ) ^ d)).toNat d⟩

/-- Python `f"{q:+.df}"`: fixed-point with `d` decimals and an explicit
sign. -/
def fmtPlus (q : ℚ) (d : Nat) : String :=
  ⟨(if q < 0 then ['-'] else ['+']) ++ fmtDigits (roundHalfEven (|q| * (10 : ℚ) ^ d)).toNat d⟩

/-- `bot.py` lines 18-27: format large numbers with K, M, B suffixes. -/
def format_large_number (num : ℚ) : String :=
  if num ≥ 1000000000 then fmtFixed (num / 1000000000) 1 ++ "B"
  else if num ≥ 1000000 then fmtFixed (num / 1000000) 1 ++ "M"
  else if num ≥ 1000 then fmtFixed (num / 1000) 1 ++ "K"
  else fmtFixed num 1

/-- `bot.py` lines 29-36: format small numbers with magnitude-scaled
precision.  (The literals `0.000001` and `0.001` are written as the exact
rationals they denote; the nearest binary doubles differ from them only in
an interval no claim touches.) -/
def format_small_number (num : ℚ) : String :=
  if num < 1 / 1000000 then fmtFixed num 9
  else if num < 1 / 1000 then fmtFixed num 6
  else fmtFixed num 4

/-- `bot.py` line 40: the MarkdownV2 special characters. -/
def special_chars : List Char :=
  ['_', '*', '[', ']', '(', ')', '~', Char.ofNat 96, '>', '#', '+', '-',
   '=', '|', Char.ofNat 123, Char.ofNat 125, '.', '!']

/-- `bot.py` lines 38-43.  The source applies `str.replace` once per special
character in sequence; since `\` is not itself special and each replacement
only inserts a `\` before an occurrence of one original character, the
sequential replaces equal this single left-to-right pass. -/
def escape_markdown (text : String) : String :=
  ⟨text.data.foldr (fun c acc => if c ∈ special_chars then '\\' :: c :: acc else c :: acc) []⟩

/-- Number of characters after the last `.` of a string: how many decimals a
fixed-point rendering shows. -/
def decimalsOf (s : String) : Nat :=
  (s.data.reverse.takeWhile (fun c => decide (c ≠ '.'))).length

/-- Rounding an integer-valued rational is the identity. -/
lemma roundHalfEven_natCast (m : ℕ) : roundHalfEven (m : ℚ) = m := by
  unfold roundHalfEven
  rw [Int.floor_natCast]
  simp

/-- Evaluation helper: a nonnegative rational whose scaled magnitude is the
natural number `m` formats as the digit string of `m`. -/
lemma fmtFixed_eval_nonneg (q : ℚ) (d : Nat) (m : Nat) (s : String)
    (h0 : 0 ≤ q) (h : q * (10 : ℚ) ^ d = (m : ℚ))
    (hs : String.mk (fmtDigits m d) = s) : fmtFixed q d = s := by
  unfold fmtFixed
  rw [if_neg (not_lt.mpr h0), abs_of_nonneg h0, h, roundHalfEven_natCast]
  simpa using hs

/-- Evaluation helper for negative rationals. -/
lemma fmtFixed_eval_neg (q : ℚ) (d : Nat) (m : Nat) (s : String)
    (h0 : q < 0) (h : -q * (10 : ℚ) ^ d = (m : ℚ))
    (hs : String.mk ('-' :: fmtDigits m d) = s) : fmtFixed q d = s := by
  unfold fmtFixed
  rw [if_pos h0, abs_of_neg h0, h, roundHalfEven_natCast]
  simpa using hs

/-- Digits below ten never render as a dot. -/
lemma digitChar_ne_dot : ∀ k, k < 10 → Nat.digitChar k ≠ '.' := by decide

lemma natChars_ne_dot : ∀ fuel m, ∀ c ∈ natChars fuel m, c ≠ '.' := by
  intro fuel
  induction fuel with
  | zero => intro m c hc; simp [natChars] at hc
  | succ f ih =>
    intro m c hc
    by_cases hm : m < 10
    · simp [natChars, hm] at hc
      exact hc ▸ digitChar_ne_dot m hm
    · simp [natChars, hm] at hc
      rcases hc with hc | hc
      · exact ih _ c hc
      · exact hc ▸ digitChar_ne_dot _ (Nat.mod_lt _ (by norm_num))

lemma natDigitsPadded_length : ∀ d m, (natDigitsPadded m d).length = d := by
  intro d
  induction d with
  | zero => intro m; simp [natDigitsPadded]
  | succ e ih => intro m; simp [natDigitsPadded, ih]

lemma natDigitsPadded_ne_dot : ∀ d m, ∀ c ∈ natDigitsPadded m d, c ≠ '.' := by
  intro d
  induction d with
  | zero => intro m c hc; simp [natDigitsPadded] at hc
  | succ e ih =>
    intro m c hc
    simp [natDigitsPadded] at hc
    rcases hc with hc | hc
    · exact ih _ c hc
    · exact hc ▸ digitChar_ne_dot _ (Nat.mod_lt _ (by norm_num))

lemma takeWhile_ne_dot (l1 l2 : List Char) (h : ∀ c ∈ l1, c ≠ '.') :
    (l1 ++ '.' :: l2).takeWhile (fun c => decide (c ≠ '.')) = l1 := by
  induction l1 with
  | nil => simp [List.takeWhile]
  | cons a t ih =>
    have ha : a ≠ '.' := h a (by simp)
    simp only [List.cons_append, List.takeWhile]
    rw [decide_eq_true ha]
    simp only [List.cons.injEq, true_and]
    exact ih (fun c hc => h c (by simp [hc]))

/-- A fixed-point rendering with `d + 1` decimals shows exactly `d + 1`
characters after its (last) dot. -/
lemma decimalsOf_fmtFixed (q : ℚ) (d : Nat) : decimalsOf (fmtFixed q (d + 1)) = d + 1 := by
  unfold decimalsOf fmtFixed fmtDigits
  set m := (roundHalfEven (|q| * (10 : ℚ) ^ (d + 1))).toNat with hm
  set pre := (if q < 0 then ['-'] else []) with hpre
  set ip := natToChars (m / 10 ^ (d + 1)) with hip
  set pad := natDigitsPadded (m % 10 ^ (d + 1)) (d + 1) with hpad
  have hassoc : pre ++ (ip ++ '.' :: pad) = (pre ++ ip) ++ '.' :: pad := by
    simp [List.append_assoc]
  simp only [String.data]
  rw [hassoc, List.reverse_append]
  have : ('.' :: pad).reverse = pad.reverse ++ ['.'] := by simp
  rw [this, List.append_assoc]
  have hall : ∀ c ∈ pad.reverse, c ≠ '.' := by
    intro c hc
    exact natDigitsPadded_ne_dot _ _ c (List.mem_reverse.mp hc)
  have : ['.'] ++ (pre ++ ip).reverse = '.' :: (pre ++ ip).reverse := by simp
  rw [this, takeWhile_ne_dot _ _ hall]
  simp [hpad, natDigitsPadded_length]

lemma format_large_number_999 : format_large_number 999 = "999.0" := by
  unfold format_large_number
  rw [if_neg (by norm_num), if_neg (by norm_num), if_neg (by norm_num)]
  exact fmtFixed_eval_nonneg _ _ 9990 _ (by norm_num) (by norm_num) (by decide)

lemma format_large_number_1500000 : format_large_number 1500000 = "1.5M" := by
  unfold format_large_number
  rw [if_neg (by norm_num), if_pos (by norm_num)]
  rw [fmtFixed_eval_nonneg (1500000 / 1000000) 1 15 "1.5" (by norm_num) (by norm_num) (by decide)]
  decide

lemma format_small_number_3e7 : format_small_number (3 / 10000000) = "0.000000300" := by
  unfold format_small_number
  rw [if_pos (by norm_num)]
  exact fmtFixed_eval_nonneg _ _ 300 _ (by norm_num) (by norm_num) (by decide)

lemma format_small_number_half : format_small_number (1 / 2) = "0.5000" := by
  unfold format_small_number
  rw [if_neg (by norm_num), if_neg (by norm_num)]
  exact fmtFixed_eval_nonneg _ _ 5000 _ (by norm_num) (by norm_num) (by decide)

/-- C9: `format_large_number` chooses suffix B at >= 1e9, M at >= 1e6, K at
>= 1e3, each rendered with one decimal place, else one decimal with no
suffix; `format_small_number` renders 9 decimals below 1e-6, 6 decimals
below 1e-3, else 4 decimals; `format_large_number 999 = "999.0"`,
`format_large_number 1500000 = "1.5M"`, `format_small_number 0.0000003` is a
9-decimal string and `format_small_number 0.5` a 4-decimal string
(`decimalsOf (fmtFixed q (d+1)) = d+1` gives "renders with d+1 decimal
places" its meaning). -/
theorem C9_formatters :
    (∀ q : ℚ, format_large_number q =
        if q ≥ 1000000000 then fmtFixed (q / 1000000000) 1 ++ "B"
        else if q ≥ 1000000 then fmtFixed (q / 1000000) 1 ++ "M"
        else if q ≥ 1000 then fmtFixed (q / 1000) 1 ++ "K"
        else fmtFixed q 1)
    ∧ (∀ q : ℚ, format_small_number q =
        fmtFixed q (if q < 1 / 1000000 then 9 else if q < 1 / 1000 then 6 else 4))
    ∧ (∀ (q : ℚ) (d : Nat), decimalsOf (fmtFixed q (d + 1)) = d + 1)
    ∧ format_large_number 999 = "999.0"
    ∧ format_large_number 1500000 = "1.5M"
    ∧ format_small_number (3 / 10000000) = "0.000000300"
    ∧ decimalsOf (format_small_number (3 / 10000000)) = 9
    ∧ format_small_number (1 / 2) = "0.5000"
    ∧ decimalsOf (format_small_number (1 / 2)) = 4 := by
  refine ⟨fun q => rfl, fun q => ?_, fun q d => decimalsOf_fmtFixed q d,
    format_large_number_999, format_large_number_1500000, format_small_number_3e7,
    ?_, format_small_number_half, ?_⟩
  · by_cases h1 : q < 1 / 1000000
    · unfold format_small_number
      rw [if_pos h1, if_pos h1]
    · by_cases h2 : q < 1 / 1000
      · unfold format_small_number
        rw [if_neg h1, if_neg h1, if_pos h2, if_pos h2]
      · unfold format_small_number
        rw [if_neg h1, if_neg h1, if_neg h2, if_neg h2]
  · rw [format_small_number_3e7]; decide
  · rw [format_small_number_half]; decide

/-- C10: both formatters branch on the signed value, not on `|num|`: every
negative number takes `format_small_number`'s 9-decimal branch
(`format_small_number (-0.5) = "-0.500000000"`) and `format_large_number`'s
plain one-decimal no-suffix branch, however large the magnitude
(`format_large_number (-2e9) = "-2000000000.0"`). -/
theorem C10_negative_branch :
    (∀ q : ℚ, q < 0 →
        format_small_number q = fmtFixed q 9 ∧ format_large_number q = fmtFixed q 1)
    ∧ format_small_number (-1 / 2) = "-0.500000000"
    ∧ format_large_number (-2000000000) = "-2000000000.0" := by
  refine ⟨fun q hq => ⟨?_, ?_⟩, ?_, ?_⟩
  · have hlt : q < 1 / 1000000 := lt_trans hq (by norm_num)
    unfold format_small_number
    rw [if_pos hlt]
  · have h1 : ¬ q ≥ 1000000000 := by intro h; linarith
    have h2 : ¬ q ≥ 1000000 := by intro h; linarith
    have h3 : ¬ q ≥ 1000 := by intro h; linarith
    unfold format_large_number
    rw [if_neg h1, if_neg h2, if_neg h3]
  · unfold format_small_number
    rw [if_pos (by norm_num)]
    exact fmtFixed_eval_neg _ _ 500000000 _ (by norm_num) (by norm_num) (by decide)
  · unfold format_large_number
    rw [if_neg (by norm_num), if_neg (by norm_num), if_neg (by norm_num)]
    exact fmtFixed_eval_neg _ _ 20000000000 _ (by norm_num) (by norm_num) (by decide)

/-- Witness for C10: the general negative-branch statement applied at the
concrete input `-1`. -/
theorem C10_negative_branch_witness :
    (-1 : ℚ) < 0 ∧
      (format_small_number (-1) = fmtFixed (-1) 9 ∧
        format_large_number (-1) = fmtFixed (-1) 1) :=
  ⟨by norm_num, C10_negative_branch.1 (-1) (by norm_num)⟩

/-! ## The subscription manager (`PriceTracker`, `bot.py` lines 45-127)

Python dicts are modelled as association lists with unique keys; chat ids
are integers, contract addresses and network names strings.  A created
asyncio task is modelled by a fresh numeric handle; `Task.cancel()` adds
the handle to the `cancelled` set.  -/

def lookup? {K V : Type} [DecidableEq K] : List (K × V) → K → Option V
  | [], _ => none
  | (a, v) :: t, k => if a = k then some v else lookup? t k

/-- `d[k] = v`: replace in place, or append a new binding. -/
def setk {K V : Type} [DecidableEq K] : List (K × V) → K → V → List (K × V)
  | [], k, v => [(k, v)]
  | (a, b) :: t, k, v => if a = k then (k, v) :: t else (a, b) :: setk t k v

/-- `del d[k]` (keys are unique, so removing every binding of `k` equals
removing the one binding, and it is a no-op when `k` is absent, matching the
source's `if k in d: del d[k]` uses). -/
def erasek {K V : Type} [DecidableEq K] : List (K × V) → K → List (K × V)
  | [], _ => []
  | (a, b) :: t, k => if a = k then erasek t k else (a, b) :: erasek t k

lemma lookup?_setk_self {K V : Type} [DecidableEq K] (m : List (K × V)) (k : K) (v : V) :
    lookup? (setk m k v) k = some v := by
  induction m with
  | nil => simp [setk, lookup?]
  | cons p t ih =>
    obtain ⟨a, b⟩ := p
    by_cases h : a = k
    · subst h; simp [setk, lookup?]
    · simp [setk, h, lookup?, ih]

lemma lookup?_setk_ne {K V : Type} [DecidableEq K] (m : List (K × V)) {k k' : K}
    (h : k' ≠ k) (v : V) : lookup? (setk m k v) k' = lookup? m k' := by
  have hne : ¬ k = k' := fun he => h he.symm
  induction m with
  | nil => simp [setk, lookup?, hne]
  | cons p t ih =>
    obtain ⟨a, b⟩ := p
    by_cases hp : a = k
    · subst hp; simp [setk, lookup?, hne]
    · simp [setk, hp, lookup?, ih]

lemma lookup?_erasek_self {K V : Type} [DecidableEq K] (m : List (K × V)) (k : K) :
    lookup? (erasek m k) k = none := by
  induction m with
  | nil => simp [erasek, lookup?]
  | cons p t ih =>
    obtain ⟨a, b⟩ := p
    by_cases h : a = k
    · simp [erasek, h, ih]
    · simp [erasek, h, lookup?, ih]

lemma lookup?_erasek_ne {K V : Type} [DecidableEq K] (m : List (K × V)) {k k' : K}
    (h : k' ≠ k) : lookup? (erasek m k) k' = lookup? m k' := by
  have hne : ¬ k = k' := fun he => h he.symm
  induction m with
  | nil => simp [erasek]
  | cons p t ih =>
    obtain ⟨a, b⟩ := p
    by_cases hp : a = k
    · subst hp; simp [erasek, lookup?, hne, ih]
    · simp [erasek, hp, lookup?, ih]

/-- The index of the first matching element, mirroring
`next((i for i, x in enumerate(l) if p x), None)` (`bot.py` lines 96-97). -/
def firstIdx {α : Type} (p : α → Bool) : List α → Option Nat
  | [] => none
  | a :: t => if p a then some 0 else (firstIdx p t).map (· + 1)

/-- The `PriceTracker` instance state (`bot.py` lines 46-51): five parallel
dicts keyed by chat id, plus the task-handle supply and the ghost record of
cancelled task handles. -/
structure TrackerState where
  active_trackers : List (ℤ × List (String × String))
  tasks : List (ℤ × List Nat)
  initial_prices : List (ℤ × List (String × ℚ))
  initial_fdv : List (ℤ × List (String × ℚ))
  alert_intervals : List (ℤ × List (String × ℤ))
  nextTaskId : Nat
  cancelled : List Nat
deriving DecidableEq

/-- `PriceTracker()` (`bot.py` lines 46-51, 237). -/
def initTracker : TrackerState := ⟨[], [], [], [], [], 0, []⟩

/-- Which reply `start_tracking` sends: "Already tracking ..."
(DuplicateSubscription), "Invalid interval ..." (InvalidInterval), or the
confirmation (success). -/
inductive StartOutcome
  | duplicate
  | invalidInterval
  | started
deriving DecidableEq

/-- `bot.py` lines 54-60: the lazy per-chat initialization performed at the
top of `start_tracking`, before any validation. -/
def ensure_chat (st : TrackerState) (chat : ℤ) : TrackerState :=
  if (lookup? st.active_trackers chat).isSome then st
  else
    { st with
      active_trackers := setk st.active_trackers chat []
      tasks := setk st.tasks chat []
      initial_prices := setk st.initial_prices chat []
      initial_fdv := setk st.initial_fdv chat []
      alert_intervals := setk st.alert_intervals chat [] }

/-- `PriceTracker.start_tracking` (`bot.py` lines 53-88).  Note the source's
order: lazy init, duplicate check, interval validation, then registration
and task creation. -/
def start_tracking (st : TrackerState) (chat : ℤ) (network contract : String)
    (interval : ℤ) : StartOutcome × TrackerState :=
  if ((lookup? (ensure_chat st chat).active_trackers chat).getD []).any
      (fun p => decide (p.2 = contract)) then
    (.duplicate, ensure_chat st chat)
  else if interval ∉ ([1, 5, 15, 30, 60] : List ℤ) then
    (.invalidInterval, ensure_chat st chat)
  else
    (.started,
      { ensure_chat st chat with
        active_trackers := setk (ensure_chat st chat).active_trackers chat
          (((lookup? (ensure_chat st chat).active_trackers chat).getD []) ++ [(network, contract)])
        alert_intervals := setk (ensure_chat st chat).alert_intervals chat
          (setk ((lookup? (ensure_chat st chat).alert_intervals chat).getD []) contract interval)
        tasks := setk (ensure_chat st chat).tasks chat
          (((lookup? (ensure_chat st chat).tasks chat).getD []) ++ [(ensure_chat st chat).nextTaskId])
        nextTaskId := (ensure_chat st chat).nextTaskId + 1 })

/-- `PriceTracker.stop_tracking` (`bot.py` lines 90-127).  `True` means the
stop succeeded, `False` is the NotFound reply ("Not tracking any token in
this chat").  At the `self.tasks[chat_id][token_index].cancel()` line Python
would raise `IndexError` if the parallel lists were misaligned; that state
is unreachable, and the model skips the cancellation there (the theorems
about this path carry the alignment hypothesis). -/
def stop_tracking (st : TrackerState) (chat : ℤ) (contract : Option String) :
    Bool × TrackerState :=
  match lookup? st.active_trackers chat with
  | none => (false, st)
  | some cur =>
    match contract with
    | some c =>
      match firstIdx (fun p => decide (p.2 = c)) cur with
      | none => (false, st)
      | some i =>
        if (cur.eraseIdx i).isEmpty then
          (true,
            { active_trackers := erasek st.active_trackers chat
              tasks := erasek st.tasks chat
              initial_prices := erasek st.initial_prices chat
              initial_fdv := erasek st.initial_fdv chat
              alert_intervals := erasek st.alert_intervals chat
              nextTaskId := st.nextTaskId
              cancelled := match ((lookup? st.tasks chat).getD [])[i]? with
                | some tk => tk :: st.cancelled
                | none => st.cancelled })
        else
          (true,
            { active_trackers := setk st.active_trackers chat (cur.eraseIdx i)
              tasks := setk st.tasks chat (((lookup? st.tasks chat).getD []).eraseIdx i)
              initial_prices := setk st.initial_prices chat
                (erasek ((lookup? st.initial_prices chat).getD []) c)
              initial_fdv := setk st.initial_fdv chat
                (erasek ((lookup? st.initial_fdv chat).getD []) c)
              alert_intervals := setk st.alert_intervals chat
                (erasek ((lookup? st.alert_intervals chat).getD []) c)
              nextTaskId := st.nextTaskId
              cancelled := match ((lookup? st.tasks chat).getD [])[i]? with
                | some tk => tk :: st.cancelled
                | none => st.cancelled })
    | none =>
      (true,
        { active_trackers := erasek st.active_trackers chat
          tasks := erasek st.tasks chat
          initial_prices := erasek st.initial_prices chat
          initial_fdv := erasek st.initial_fdv chat
          alert_intervals := erasek st.alert_intervals chat
          nextTaskId := st.nextTaskId
          cancelled := ((lookup? st.tasks chat).getD []) ++ st.cancelled })

lemma firstIdx_some {α : Type} (p : α → Bool) :
    ∀ (l : List α) (i : Nat), firstIdx p l = some i →
      i < l.length ∧ ∃ a, l[i]? = some a ∧ p a = true := by
  intro l
  induction l with
  | nil => intro i h; simp [firstIdx] at h
  | cons a t ih =>
    intro i h
    by_cases hp : p a
    · simp [firstIdx, hp] at h
      subst h
      exact ⟨by simp, a, by simp, hp⟩
    · simp [firstIdx, hp] at h
      obtain ⟨j, hj, hji⟩ := h
      obtain ⟨hlt, b, hb, hpb⟩ := ih j hj
      subst hji
      exact ⟨by simpa using hlt, b, by simpa using hb, hpb⟩

lemma ensure_chat_active_getD (st : TrackerState) (chat ch : ℤ) :
    (lookup? (ensure_chat st chat).active_trackers ch).getD [] =
      (lookup? st.active_trackers ch).getD [] := by
  unfold ensure_chat
  by_cases h : (lookup? st.active_trackers chat).isSome
  · simp [h]
  · rw [if_neg h]
    by_cases hc : ch = chat
    · subst hc
      have hn : lookup? st.active_trackers ch = none := by
        rwa [Option.not_isSome_iff_eq_none] at h
      simp [lookup?_setk_self, hn]
    · simp [lookup?_setk_ne _ hc]

lemma ensure_chat_nextTaskId (st : TrackerState) (chat : ℤ) :
    (ensure_chat st chat).nextTaskId = st.nextTaskId := by
  unfold ensure_chat; split <;> rfl

lemma ensure_chat_cancelled (st : TrackerState) (chat : ℤ) :
    (ensure_chat st chat).cancelled = st.cancelled := by
  unfold ensure_chat; split <;> rfl

/-- Inversion of the `duplicate` branch of `start_tracking`. -/
lemma start_tracking_duplicate (st : TrackerState) (chat : ℤ) (n c : String) (i : ℤ)
    (h : ((lookup? (ensure_chat st chat).active_trackers chat).getD []).any
      (fun p => decide (p.2 = c)) = true) :
    start_tracking st chat n c i = (.duplicate, ensure_chat st chat) := by
  unfold start_tracking
  rw [h]
  simp

/-- Inversion of the `invalidInterval` branch of `start_tracking`. -/
lemma start_tracking_invalid (st : TrackerState) (chat : ℤ) (n c : String) (i : ℤ)
    (hdup : ((lookup? (ensure_chat st chat).active_trackers chat).getD []).any
      (fun p => decide (p.2 = c)) = false)
    (hint : i ∉ ([1, 5, 15, 30, 60] : List ℤ)) :
    start_tracking st chat n c i = (.invalidInterval, ensure_chat st chat) := by
  unfold start_tracking
  rw [hdup]
  simp [hint]

/-- Inversion of the success branch of `start_tracking`. -/
lemma start_tracking_started (st : TrackerState) (chat : ℤ) (n c : String) (i : ℤ)
    (h : (start_tracking st chat n c i).1 = .started) :
    ((lookup? (ensure_chat st chat).active_trackers chat).getD []).any
        (fun p => decide (p.2 = c)) = false
    ∧ i ∈ ([1, 5, 15, 30, 60] : List ℤ)
    ∧ (start_tracking st chat n c i).2 =
      { ensure_chat st chat with
        active_trackers := setk (ensure_chat st chat).active_trackers chat
          (((lookup? (ensure_chat st chat).active_trackers chat).getD []) ++ [(n, c)])
        alert_intervals := setk (ensure_chat st chat).alert_intervals chat
          (setk ((lookup? (ensure_chat st chat).alert_intervals chat).getD []) c i)
        tasks := setk (ensure_chat st chat).tasks chat
          (((lookup? (ensure_chat st chat).tasks chat).getD []) ++ [(ensure_chat st chat).nextTaskId])
        nextTaskId := (ensure_chat st chat).nextTaskId + 1 } := by
  by_cases hdup : ((lookup? (ensure_chat st chat).active_trackers chat).getD []).any
      (fun p => decide (p.2 = c)) = true
  · rw [start_tracking_duplicate st chat n c i hdup] at h
    simp at h
  · rw [Bool.not_eq_true] at hdup
    by_cases hint : i ∈ ([1, 5, 15, 30, 60] : List ℤ)
    · refine ⟨hdup, hint, ?_⟩
      unfold start_tracking
      rw [hdup]
      simp [hint]
    · rw [start_tracking_invalid st chat n c i hdup hint] at h
      simp at h

/-- C4: if `Start(chat, network, contract, interval)` succeeds, an immediate
second `Start` on the same `(chat, contract)` pair — any network, any
interval — is rejected with the DuplicateSubscription reply, mutates
nothing, and exactly one Subscription for that pair is registered. -/
theorem C4_duplicate_start (st : TrackerState) (chat : ℤ) (n c : String) (i : ℤ)
    (n' : String) (i' : ℤ)
    (h : (start_tracking st chat n c i).1 = .started) :
    (start_tracking (start_tracking st chat n c i).2 chat n' c i').1 = .duplicate
    ∧ (start_tracking (start_tracking st chat n c i).2 chat n' c i').2 =
        (start_tracking st chat n c i).2
    ∧ ((lookup? (start_tracking (start_tracking st chat n c i).2 chat n' c i').2.active_trackers
          chat).getD []).countP (fun p => decide (p.2 = c)) = 1 := by
  obtain ⟨hdup, hint, hst2⟩ := start_tracking_started st chat n c i h
  set st1 := ensure_chat st chat with hst1
  set cur := (lookup? st1.active_trackers chat).getD [] with hcur
  have hlook2 : lookup? (start_tracking st chat n c i).2.active_trackers chat =
      some (cur ++ [(n, c)]) := by
    rw [hst2]
    exact lookup?_setk_self _ _ _
  have hens2 : ensure_chat (start_tracking st chat n c i).2 chat =
      (start_tracking st chat n c i).2 := by
    unfold ensure_chat
    rw [hlook2]
    simp
  have hany2 : ((lookup? (ensure_chat (start_tracking st chat n c i).2 chat).active_trackers
      chat).getD []).any (fun p => decide (p.2 = c)) = true := by
    rw [hens2, hlook2]
    simp
  have hkey := start_tracking_duplicate (start_tracking st chat n c i).2 chat n' c i' hany2
  rw [hens2] at hkey
  refine ⟨by rw [hkey], by rw [hkey], ?_⟩
  rw [hkey]
  simp only [hlook2, Option.getD_some]
  rw [List.countP_append]
  have hzero : cur.countP (fun p => decide (p.2 = c)) = 0 := by
    rw [List.countP_eq_zero]
    intro a ha
    rw [List.any_eq_false] at hdup
    exact hdup a ha
  rw [hzero]
  simp

/-- Witness for C4: two identical starts from the empty tracker. -/
theorem C4_duplicate_start_witness :
    (start_tracking initTracker 1 "eth" "0xabc" 5).1 = .started
    ∧ (start_tracking (start_tracking initTracker 1 "eth" "0xabc" 5).2 1 "bsc" "0xabc" 15).1
        = .duplicate
    ∧ ((lookup? (start_tracking (start_tracking initTracker 1 "eth" "0xabc" 5).2
          1 "bsc" "0xabc" 15).2.active_trackers 1).getD []).countP
        (fun p => decide (p.2 = "0xabc")) = 1 := by
  refine ⟨by decide, ?_, ?_⟩
  · exact (C4_duplicate_start initTracker 1 "eth" "0xabc" 5 "bsc" 15 (by decide)).1
  · exact (C4_duplicate_start initTracker 1 "eth" "0xabc" 5 "bsc" 15 (by decide)).2.2

/-- C5 (amended): for every interval outside {1, 5, 15, 30, 60}, provided
the (chat, contract) pair is not already tracked, `Start` fails with the
InvalidInterval reply, registers no Subscription for any chat, and creates
no Polling Loop (no task handle is consumed, nothing is cancelled).  The
source checks for a duplicate before validating the interval, so the
proviso is necessary (see the counterexample). -/
theorem C5_invalid_interval (st : TrackerState) (chat ch : ℤ) (n c : String) (i : ℤ)
    (hint : i ∉ ([1, 5, 15, 30, 60] : List ℤ))
    (hdup : ((lookup? st.active_trackers chat).getD []).any
      (fun p => decide (p.2 = c)) = false) :
    (start_tracking st chat n c i).1 = .invalidInterval
    ∧ (lookup? (start_tracking st chat n c i).2.active_trackers ch).getD []
        = (lookup? st.active_trackers ch).getD []
    ∧ (start_tracking st chat n c i).2.nextTaskId = st.nextTaskId
    ∧ (start_tracking st chat n c i).2.cancelled = st.cancelled := by
  have hd : ((lookup? (ensure_chat st chat).active_trackers chat).getD []).any
      (fun p => decide (p.2 = c)) = false := by
    rw [ensure_chat_active_getD]; exact hdup
  rw [start_tracking_invalid st chat n c i hd hint]
  exact ⟨rfl, ensure_chat_active_getD st chat ch, ensure_chat_nextTaskId st chat,
    ensure_chat_cancelled st chat⟩

/-- Witness for C5: interval 2 on a fresh tracker. -/
theorem C5_invalid_interval_witness :
    ((2 : ℤ) ∉ ([1, 5, 15, 30, 60] : List ℤ))
    ∧ (start_tracking initTracker 1 "eth" "0xabc" 2).1 = .invalidInterval
    ∧ (lookup? (start_tracking initTracker 1 "eth" "0xabc" 2).2.active_trackers 1).getD []
        = (lookup? initTracker.active_trackers 1).getD []
    ∧ (start_tracking initTracker 1 "eth" "0xabc" 2).2.nextTaskId = initTracker.nextTaskId := by
  have h := C5_invalid_interval initTracker 1 1 "eth" "0xabc" 2 (by decide) (by decide)
  exact ⟨by decide, h.1, h.2.1, h.2.2.1⟩

/-- Counterexample to C5 as stated: when the pair is already tracked, an
invalid interval is reported as a duplicate, not as InvalidInterval — the
source checks duplicates first. -/
theorem C5_counterexample :
    ((2 : ℤ) ∉ ([1, 5, 15, 30, 60] : List ℤ))
    ∧ (start_tracking ((start_tracking initTracker 1 "eth" "0xabc" 5).2)
        1 "eth" "0xabc" 2).1 = .duplicate
    ∧ ¬ (start_tracking ((start_tracking initTracker 1 "eth" "0xabc" 5).2)
        1 "eth" "0xabc" 2).1 = .invalidInterval := by decide

/-- `stop_tracking` when the chat has no per-chat entry: the NotFound reply,
state untouched (`bot.py` lines 91-92). -/
lemma stop_tracking_no_entry (st : TrackerState) (chat : ℤ) (contract : Option String)
    (h : lookup? st.active_trackers chat = none) :
    stop_tracking st chat contract = (false, st) := by
  unfold stop_tracking
  rw [h]

/-- `stop_tracking` batch branch (`bot.py` lines 117-126): cancel every
task of the chat and delete all five per-chat entries. -/
lemma stop_tracking_all (st : TrackerState) (chat : ℤ) (cur : List (String × String))
    (h : lookup? st.active_trackers chat = some cur) :
    stop_tracking st chat none =
      (true,
        { active_trackers := erasek st.active_trackers chat
          tasks := erasek st.tasks chat
          initial_prices := erasek st.initial_prices chat
          initial_fdv := erasek st.initial_fdv chat
          alert_intervals := erasek st.alert_intervals chat
          nextTaskId := st.nextTaskId
          cancelled := ((lookup? st.tasks chat).getD []) ++ st.cancelled }) := by
  unfold stop_tracking
  rw [h]

/-- `stop_tracking` with a contract that the chat does not track: the
NotFound reply via the fall-through `return False` (`bot.py` line 127). -/
lemma stop_tracking_pair_not_found (st : TrackerState) (chat : ℤ) (c : String)
    (cur : List (String × String))
    (hc : lookup? st.active_trackers chat = some cur)
    (hi : firstIdx (fun p => decide (p.2 = c)) cur = none) :
    stop_tracking st chat (some c) = (false, st) := by
  unfold stop_tracking
  rw [hc]
  dsimp only
  rw [hi]

/-- `stop_tracking` on the chat's last subscription (`bot.py` lines
98-116): the found entry is cancelled and removed and, the chat's list now
being empty, all five per-chat entries are deleted. -/
lemma stop_tracking_found_last (st : TrackerState) (chat : ℤ) (c : String)
    (cur : List (String × String)) (i : Nat)
    (hc : lookup? st.active_trackers chat = some cur)
    (hi : firstIdx (fun p => decide (p.2 = c)) cur = some i)
    (hemp : (cur.eraseIdx i).isEmpty = true) :
    stop_tracking st chat (some c) =
      (true,
        { active_trackers := erasek st.active_trackers chat
          tasks := erasek st.tasks chat
          initial_prices := erasek st.initial_prices chat
          initial_fdv := erasek st.initial_fdv chat
          alert_intervals := erasek st.alert_intervals chat
          nextTaskId := st.nextTaskId
          cancelled := match ((lookup? st.tasks chat).getD [])[i]? with
            | some tk => tk :: st.cancelled
            | none => st.cancelled }) := by
  unfold stop_tracking
  rw [hc]
  dsimp only
  rw [hi]
  dsimp only
  rw [hemp]
  simp

/-- `stop_tracking` on a subscription that is not the chat's last (`bot.py`
lines 98-107): the found entry is cancelled and removed, the other entries
stay. -/
lemma stop_tracking_found_more (st : TrackerState) (chat : ℤ) (c : String)
    (cur : List (String × String)) (i : Nat)
    (hc : lookup? st.active_trackers chat = some cur)
    (hi : firstIdx (fun p => decide (p.2 = c)) cur = some i)
    (hemp : (cur.eraseIdx i).isEmpty = false) :
    stop_tracking st chat (some c) =
      (true,
        { active_trackers := setk st.active_trackers chat (cur.eraseIdx i)
          tasks := setk st.tasks chat (((lookup? st.tasks chat).getD []).eraseIdx i)
          initial_prices := setk st.initial_prices chat
            (erasek ((lookup? st.initial_prices chat).getD []) c)
          initial_fdv := setk st.initial_fdv chat
            (erasek ((lookup? st.initial_fdv chat).getD []) c)
          alert_intervals := setk st.alert_intervals chat
            (erasek ((lookup? st.alert_intervals chat).getD []) c)
          nextTaskId := st.nextTaskId
          cancelled := match ((lookup? st.tasks chat).getD [])[i]? with
            | some tk => tk :: st.cancelled
            | none => st.cancelled }) := by
  unfold stop_tracking
  rw [hc]
  dsimp only
  rw [hi]
  dsimp only
  rw [hemp]
  simp

/-- C1 (amended): `Stop(chat)` with no contract fails with NotFound exactly
when the chat has no per-chat entry in the store; when an entry exists the
batch stop succeeds, removes every per-chat entry from all five maps,
cancels every task of the chat, and an immediate second `Stop(chat)` fails
with NotFound.  (As stated the claim is false: a chat can hold an *empty*
entry, created by a failed Start, for which it has no active Subscriptions
yet batch stop succeeds — see the counterexample.) -/
theorem C1_batch_stop (st : TrackerState) (chat : ℤ) (l : List (String × String)) (t : Nat) :
    (lookup? st.active_trackers chat = none → stop_tracking st chat none = (false, st))
    ∧ (lookup? st.active_trackers chat = some l →
        (stop_tracking st chat none).1 = true
        ∧ lookup? (stop_tracking st chat none).2.active_trackers chat = none
        ∧ lookup? (stop_tracking st chat none).2.tasks chat = none
        ∧ lookup? (stop_tracking st chat none).2.initial_prices chat = none
        ∧ lookup? (stop_tracking st chat none).2.initial_fdv chat = none
        ∧ lookup? (stop_tracking st chat none).2.alert_intervals chat = none
        ∧ (t ∈ (lookup? st.tasks chat).getD [] →
            t ∈ (stop_tracking st chat none).2.cancelled)
        ∧ stop_tracking (stop_tracking st chat none).2 chat none
            = (false, (stop_tracking st chat none).2)) := by
  constructor
  · intro h
    exact stop_tracking_no_entry st chat none h
  · intro h
    rw [stop_tracking_all st chat l h]
    refine ⟨rfl, lookup?_erasek_self _ _, lookup?_erasek_self _ _, lookup?_erasek_self _ _,
      lookup?_erasek_self _ _, lookup?_erasek_self _ _,
      fun ht => List.mem_append_left _ ht, ?_⟩
    exact stop_tracking_no_entry _ chat none (lookup?_erasek_self _ _)

/-- Witness for C1: a fresh tracker (no entry) and a one-subscription chat. -/
theorem C1_batch_stop_witness :
    stop_tracking initTracker 1 none = (false, initTracker)
    ∧ (stop_tracking (start_tracking initTracker 1 "eth" "0xabc" 5).2 1 none).1 = true
    ∧ lookup? (stop_tracking (start_tracking initTracker 1 "eth" "0xabc" 5).2
        1 none).2.active_trackers 1 = none
    ∧ (0 ∈ (lookup? (start_tracking initTracker 1 "eth" "0xabc" 5).2.tasks 1).getD []
        → 0 ∈ (stop_tracking (start_tracking initTracker 1 "eth" "0xabc" 5).2
            1 none).2.cancelled) := by
  refine ⟨(C1_batch_stop initTracker 1 [] 0).1 (by decide), ?_, ?_, ?_⟩
  · exact ((C1_batch_stop (start_tracking initTracker 1 "eth" "0xabc" 5).2 1
      [("eth", "0xabc")] 0).2 (by decide)).1
  · exact ((C1_batch_stop (start_tracking initTracker 1 "eth" "0xabc" 5).2 1
      [("eth", "0xabc")] 0).2 (by decide)).2.1
  · exact ((C1_batch_stop (start_tracking initTracker 1 "eth" "0xabc" 5).2 1
      [("eth", "0xabc")] 0).2 (by decide)).2.2.2.2.2.2.1

/-- Counterexample to C1 as stated: after a failed `Start` (invalid
interval) on a fresh chat, the chat holds an *empty* per-chat entry — it has
no active Subscriptions — yet `Stop(chat)` succeeds instead of failing with
NotFound, so "fails with NotFound exactly when the chat has no active
Subscriptions" is false on the code. -/
theorem C1_counterexample :
    lookup? ((start_tracking initTracker 1 "eth" "0xabc" 2).2).active_trackers 1 = some []
    ∧ (start_tracking initTracker 1 "eth" "0xabc" 2).1 = .invalidInterval
    ∧ (stop_tracking ((start_tracking initTracker 1 "eth" "0xabc" 2).2) 1 none).1 = true := by
  decide

/-- C6: `Stop(chat, contract)` on a non-existent pair fails with NotFound
and changes no state; on an existing pair it succeeds, cancels exactly the
task at the pair's index, removes exactly that subscription (the chat's
remaining list is `cur.eraseIdx i`, where entry `i` is the first one for
`contract`), leaves every other chat's five entries and every other
contract's baseline and interval untouched, consumes no task handle, and
deletes the chat's per-chat entries exactly when the stopped subscription
was the chat's last.  The hypothesis `ts.length = cur.length` is the
parallel-list alignment every reachable state satisfies (Python would raise
`IndexError` without it). -/
theorem C6_stop_single (st : TrackerState) (chat chat' : ℤ) (c c' : String)
    (cur : List (String × String)) (i : Nat) (ts : List Nat) :
    (lookup? st.active_trackers chat = none → stop_tracking st chat (some c) = (false, st))
    ∧ (lookup? st.active_trackers chat = some cur →
        firstIdx (fun p => decide (p.2 = c)) cur = none →
        stop_tracking st chat (some c) = (false, st))
    ∧ (lookup? st.active_trackers chat = some cur →
        firstIdx (fun p => decide (p.2 = c)) cur = some i →
        lookup? st.tasks chat = some ts →
        ts.length = cur.length →
        (stop_tracking st chat (some c)).1 = true
        ∧ (∃ a, cur[i]? = some a ∧ a.2 = c)
        ∧ (∃ tk, ts[i]? = some tk ∧
            (stop_tracking st chat (some c)).2.cancelled = tk :: st.cancelled)
        ∧ (chat' ≠ chat →
            lookup? (stop_tracking st chat (some c)).2.active_trackers chat'
              = lookup? st.active_trackers chat'
            ∧ lookup? (stop_tracking st chat (some c)).2.tasks chat'
              = lookup? st.tasks chat'
            ∧ lookup? (stop_tracking st chat (some c)).2.initial_prices chat'
              = lookup? st.initial_prices chat'
            ∧ lookup? (stop_tracking st chat (some c)).2.initial_fdv chat'
              = lookup? st.initial_fdv chat'
            ∧ lookup? (stop_tracking st chat (some c)).2.alert_intervals chat'
              = lookup? st.alert_intervals chat')
        ∧ (cur.length = 1 →
            lookup? (stop_tracking st chat (some c)).2.active_trackers chat = none
            ∧ lookup? (stop_tracking st chat (some c)).2.tasks chat = none
            ∧ lookup? (stop_tracking st chat (some c)).2.initial_prices chat = none
            ∧ lookup? (stop_tracking st chat (some c)).2.initial_fdv chat = none
            ∧ lookup? (stop_tracking st chat (some c)).2.alert_intervals chat = none)
        ∧ (¬ cur.length = 1 →
            lookup? (stop_tracking st chat (some c)).2.active_trackers chat
              = some (cur.eraseIdx i)
            ∧ lookup? (stop_tracking st chat (some c)).2.tasks chat
              = some (ts.eraseIdx i)
            ∧ lookup? ((lookup? (stop_tracking st chat (some c)).2.initial_prices chat).getD []) c
              = none
            ∧ lookup? ((lookup? (stop_tracking st chat (some c)).2.initial_fdv chat).getD []) c
              = none
            ∧ lookup? ((lookup? (stop_tracking st chat (some c)).2.alert_intervals chat).getD []) c
              = none
            ∧ (c' ≠ c →
                lookup? ((lookup? (stop_tracking st chat (some c)).2.initial_prices chat).getD []) c'
                  = lookup? ((lookup? st.initial_prices chat).getD []) c'
                ∧ lookup? ((lookup? (stop_tracking st chat (some c)).2.initial_fdv chat).getD []) c'
                  = lookup? ((lookup? st.initial_fdv chat).getD []) c'
                ∧ lookup? ((lookup? (stop_tracking st chat (some c)).2.alert_intervals chat).getD []) c'
                  = lookup? ((lookup? st.alert_intervals chat).getD []) c'))
        ∧ (stop_tracking st chat (some c)).2.nextTaskId = st.nextTaskId) := by
  refine ⟨fun h => stop_tracking_no_entry st chat (some c) h,
    fun hc hi => stop_tracking_pair_not_found st chat c cur hc hi,
    fun hc hi hts hlen => ?_⟩
  obtain ⟨hilt, a, ha, hpa⟩ := firstIdx_some _ cur i hi
  have hits : i < ts.length := by rw [hlen]; exact hilt
  have htk : ts[i]? = some ts[i] := List.getElem?_eq_getElem hits
  have htsD : (lookup? st.tasks chat).getD [] = ts := by rw [hts]; rfl
  have htkD : ((lookup? st.tasks chat).getD [])[i]? = some ts[i] := by rw [htsD]; exact htk
  have hlen' : (cur.eraseIdx i).length = cur.length - 1 := by
    rw [List.length_eraseIdx]; simp [hilt]
  have hac : a.2 = c := of_decide_eq_true hpa
  by_cases hone : cur.length = 1
  · have hemp : (cur.eraseIdx i).isEmpty = true := by
      have h0 : (cur.eraseIdx i).length = 0 := by omega
      rw [List.eq_nil_of_length_eq_zero h0]
      rfl
    rw [stop_tracking_found_last st chat c cur i hc hi hemp]
    refine ⟨rfl, ⟨a, ha, hac⟩, ⟨ts[i], htk, by simp [htkD]⟩, ?_, ?_, fun h => absurd hone h, rfl⟩
    · intro hne
      exact ⟨lookup?_erasek_ne _ hne, lookup?_erasek_ne _ hne, lookup?_erasek_ne _ hne,
        lookup?_erasek_ne _ hne, lookup?_erasek_ne _ hne⟩
    · intro _
      exact ⟨lookup?_erasek_self _ _, lookup?_erasek_self _ _, lookup?_erasek_self _ _,
        lookup?_erasek_self _ _, lookup?_erasek_self _ _⟩
  · have hemp : (cur.eraseIdx i).isEmpty = false := by
      have h0 : ¬ (cur.eraseIdx i).length = 0 := by omega
      cases h : cur.eraseIdx i with
      | nil => simp [h] at h0
      | cons x xs => rfl
    rw [stop_tracking_found_more st chat c cur i hc hi hemp]
    refine ⟨rfl, ⟨a, ha, hac⟩, ⟨ts[i], htk, by simp [htkD]⟩, ?_, fun h => absurd h hone,
      fun _ => ?_, rfl⟩
    · intro hne
      exact ⟨lookup?_setk_ne _ hne _, lookup?_setk_ne _ hne _, lookup?_setk_ne _ hne _,
        lookup?_setk_ne _ hne _, lookup?_setk_ne _ hne _⟩
    · refine ⟨lookup?_setk_self _ _ _, by rw [← htsD]; exact lookup?_setk_self _ _ _,
        ?_, ?_, ?_, fun hcc => ⟨?_, ?_, ?_⟩⟩
      · show lookup? ((lookup? (setk st.initial_prices chat
          (erasek ((lookup? st.initial_prices chat).getD []) c)) chat).getD []) c = none
        rw [lookup?_setk_self]
        exact lookup?_erasek_self _ _
      · show lookup? ((lookup? (setk st.initial_fdv chat
          (erasek ((lookup? st.initial_fdv chat).getD []) c)) chat).getD []) c = none
        rw [lookup?_setk_self]
        exact lookup?_erasek_self _ _
      · show lookup? ((lookup? (setk st.alert_intervals chat
          (erasek ((lookup? st.alert_intervals chat).getD []) c)) chat).getD []) c = none
        rw [lookup?_setk_self]
        exact lookup?_erasek_self _ _
      · show lookup? ((lookup? (setk st.initial_prices chat
          (erasek ((lookup? st.initial_prices chat).getD []) c)) chat).getD []) c'
          = lookup? ((lookup? st.initial_prices chat).getD []) c'
        rw [lookup?_setk_self]
        exact lookup?_erasek_ne _ hcc
      · show lookup? ((lookup? (setk st.initial_fdv chat
          (erasek ((lookup? st.initial_fdv chat).getD []) c)) chat).getD []) c'
          = lookup? ((lookup? st.initial_fdv chat).getD []) c'
        rw [lookup?_setk_self]
        exact lookup?_erasek_ne _ hcc
      · show lookup? ((lookup? (setk st.alert_intervals chat
          (erasek ((lookup? st.alert_intervals chat).getD []) c)) chat).getD []) c'
          = lookup? ((lookup? st.alert_intervals chat).getD []) c'
        rw [lookup?_setk_self]
        exact lookup?_erasek_ne _ hcc

/-- Witness for C6: a missing pair on the fresh tracker, and stopping one
of two subscriptions of chat 1. -/
theorem C6_stop_single_witness :
    stop_tracking initTracker 1 (some "0xzz") = (false, initTracker)
    ∧ (stop_tracking (start_tracking (start_tracking initTracker 1 "eth" "0xaa" 5).2
        1 "bsc" "0xbb" 5).2 1 (some "0xaa")).1 = true
    ∧ lookup? (stop_tracking (start_tracking (start_tracking initTracker 1 "eth" "0xaa" 5).2
        1 "bsc" "0xbb" 5).2 1 (some "0xaa")).2.active_trackers 1
        = some ([("eth", "0xaa"), ("bsc", "0xbb")].eraseIdx 0)
    ∧ (∃ tk, ([0, 1] : List Nat)[0]? = some tk ∧
        (stop_tracking (start_tracking (start_tracking initTracker 1 "eth" "0xaa" 5).2
          1 "bsc" "0xbb" 5).2 1 (some "0xaa")).2.cancelled
          = tk :: (start_tracking (start_tracking initTracker 1 "eth" "0xaa" 5).2
              1 "bsc" "0xbb" 5).2.cancelled)
    ∧ lookup? (stop_tracking (start_tracking (start_tracking initTracker 1 "eth" "0xaa" 5).2
        1 "bsc" "0xbb" 5).2 1 (some "0xaa")).2.active_trackers 2
        = lookup? (start_tracking (start_tracking initTracker 1 "eth" "0xaa" 5).2
            1 "bsc" "0xbb" 5).2.active_trackers 2 := by
  refine ⟨(C6_stop_single initTracker 1 2 "0xzz" "0xcc" [] 0 []).1 (by decide), ?_, ?_, ?_, ?_⟩
  · exact ((C6_stop_single (start_tracking (start_tracking initTracker 1 "eth" "0xaa" 5).2
      1 "bsc" "0xbb" 5).2 1 2 "0xaa" "0xcc" [("eth", "0xaa"), ("bsc", "0xbb")] 0
      [0, 1]).2.2 (by decide) (by decide) (by decide) (by decide)).1
  · exact (((C6_stop_single (start_tracking (start_tracking initTracker 1 "eth" "0xaa" 5).2
      1 "bsc" "0xbb" 5).2 1 2 "0xaa" "0xcc" [("eth", "0xaa"), ("bsc", "0xbb")] 0
      [0, 1]).2.2 (by decide) (by decide) (by decide) (by decide)).2.2.2.2.2.1
        (by decide)).1
  · exact ((C6_stop_single (start_tracking (start_tracking initTracker 1 "eth" "0xaa" 5).2
      1 "bsc" "0xbb" 5).2 1 2 "0xaa" "0xcc" [("eth", "0xaa"), ("bsc", "0xbb")] 0
      [0, 1]).2.2 (by decide) (by decide) (by decide) (by decide)).2.2.1
  · exact (((C6_stop_single (start_tracking (start_tracking initTracker 1 "eth" "0xaa" 5).2
      1 "bsc" "0xbb" 5).2 1 2 "0xaa" "0xcc" [("eth", "0xaa"), ("bsc", "0xbb")] 0
      [0, 1]).2.2 (by decide) (by decide) (by decide) (by decide)).2.2.2.1
        (by decide)).1

/-! ## The polling loop (`PriceTracker._track_price`, `bot.py` lines 129-234)

One loop iteration is a function of the environment's outcomes: the fetch
result, the result of each `send_message` call, and whether `CancelledError`
is delivered at one of the iteration's `await` points.  The `try`/`except`
structure is mirrored exactly: the inner `except (ValueError, TypeError)`
catches only float-conversion failures, the outer `except Exception` at
line 227 catches everything else raised inside the `try` — including a
failed send — but its own `send_message` at line 228 is unprotected, and
`CancelledError` (a `BaseException` since Python 3.8) is caught by
neither. -/

/-- Python `str()` as applied to the optional token name by
`escape_markdown` (line 192): `str(None) = "None"`. -/
def pyStr : Option String → String
  | some s => s
  | none => "None"

/-- `bot.py` lines 181-182: percentage with explicit sign and two decimals,
or the literal `0%` when exactly zero, then escaped. -/
def pctString (p : ℚ) : String :=
  if p ≠ 0 then escape_markdown (fmtPlus p 2 ++ "%") else escape_markdown "0%"

def errFetching (c : String) : String := "Error fetching price for " ++ c

def errNoPrice (c : String) : String := "Could not fetch price for " ++ c

def errFormatting (c e : String) : String := "Error formatting data for " ++ c ++ ": " ++ e

def errTracking (c e : String) : String := "Error tracking " ++ c ++ ": " ++ e

/-- The success message (`bot.py` lines 174-205).  The `datetime` string of
line 194 is computed by the source but never interpolated into the message,
so the message is a pure function of these arguments. -/
def buildMessage (network contract : String) (token_name : Option String)
    (price_float fdv_float vol_5m_float price_percentage initial_price initial_fdv : ℚ) :
    String :=
  "*" ++ escape_markdown (pyStr token_name) ++ "*\n"
    ++ "💵 *Price: $" ++ escape_markdown (format_small_number price_float) ++ " "
    ++ pctString price_percentage ++ "*\n"
    ++ "🚀 *FDV: " ++ escape_markdown ("$" ++ format_large_number fdv_float) ++ "*\n"
    ++ "🌊 *Vol 5m: " ++ escape_markdown ("$" ++ format_large_number vol_5m_float) ++ "*\n\n"
    ++ "⏰ *Track Start Price: $" ++ escape_markdown (format_small_number initial_price) ++ "*\n"
    ++ "*FDV: " ++ escape_markdown ("$" ++ format_large_number initial_fdv) ++ "*\n\n"
    ++ "✉️ *Contract:* `" ++ escape_markdown contract ++ "`\n\n"
    ++ "📈 [View Charts](https://www.geckoterminal.com/" ++ network ++ "/pools/"
    ++ contract ++ ")\n"

/-- A raw JSON field value: a number, or something `float()` rejects with
the given message. -/
inductive RawVal
  | num (q : ℚ)
  | mal (msg : String)
deriving DecidableEq

structure PoolData where
  m5pct : Option RawVal
  m5vol : Option RawVal
deriving DecidableEq

/-- The parsed 200-response body (`data.attributes` and `included`). -/
structure ApiData where
  price_usd : Option RawVal
  name : Option String
  fdv_usd : Option RawVal
  included : List PoolData
deriving DecidableEq

/-- Outcome of one fetch: parsed 200 body, non-200 status, an exception
raised while requesting/parsing, or `CancelledError` delivered at this
`await`. -/
inductive FetchOut
  | ok (d : ApiData)
  | httpErr
  | exc (msg : String)
  | canc
deriving DecidableEq

/-- Outcome of one `send_message` await: success, an Exception-class error
(e.g. a Telegram API failure — not a `ValueError`/`TypeError`), or
`CancelledError` delivered at this `await` (`delivered` records whether the
in-flight send still reached the chat). -/
inductive SendOut
  | ok
  | exc (msg : String)
  | canc (delivered : Bool)
deriving DecidableEq

/-- The environment of one loop iteration: the fetch outcome, the outcome
of the first send attempted inside the `try`, the outcome of the
`except`-handler send of line 228, and whether `CancelledError` arrives
during the `asyncio.sleep` of line 234. -/
structure IterInput where
  fetch : FetchOut
  send1 : SendOut
  send2 : SendOut
  cancAtSleep : Bool
deriving DecidableEq

/-- Why the `while True` loop terminated: cooperative cancellation, or an
exception that escaped (only possible from the unprotected handler send). -/
inductive StopKind
  | cancelled
  | crashed (msg : String)
deriving DecidableEq

/-- The loop-local state: the `is_first_message` flag (line 130) and this
subscription's `initial_prices` / `initial_fdv` entries (lines 169-170). -/
structure LoopState where
  is_first_message : Bool
  initialPrice : Option ℚ
  initialFdv : Option ℚ
deriving DecidableEq

/-- One iteration's effect: the messages actually delivered to the chat,
the updated loop state, and whether the loop terminated. -/
structure IterResult where
  delivered : List String
  state : LoopState
  halt : Option StopKind
deriving DecidableEq

/-- `float(x)` on a present field (lines 162-165): a malformed value raises
`ValueError`, caught by the inner `except (ValueError, TypeError)`. -/
def parseFloat : RawVal → Except String ℚ
  | .num q => .ok q
  | .mal m => .error m

/-- `float(x) if x is not None else 0.0` (lines 163-165). -/
def parseOptFloat : Option RawVal → Except String ℚ
  | none => .ok 0
  | some v => parseFloat v

/-- The float conversions of lines 162-165 in source order: price, fdv,
5-minute volume, 5-minute percentage; the first failure raises. -/
def parse4 (praw : RawVal) (fdv vol pct : Option RawVal) :
    Except String (ℚ × ℚ × ℚ × ℚ) :=
  match parseFloat praw with
  | .error m => .error m
  | .ok a =>
    match parseOptFloat fdv with
    | .error m => .error m
    | .ok b =>
      match parseOptFloat vol with
      | .error m => .error m
      | .ok v =>
        match parseOptFloat pct with
        | .error m => .error m
        | .ok pc => .ok (a, b, v, pc)

/-- After the `try`/`except`: the `asyncio.sleep` of line 234, where a
pending cancellation is observed. -/
def afterTry (delivered : List String) (ls : LoopState) (inp : IterInput) : IterResult :=
  if inp.cancAtSleep then ⟨delivered, ls, some .cancelled⟩ else ⟨delivered, ls, none⟩

/-- The outer `except Exception` handler (lines 227-231): its own
`send_message` is unprotected, so a failure there escapes the loop, and a
`CancelledError` there escapes as well. -/
def outerHandler (contract : String) (emsg : String) (ls : LoopState) (inp : IterInput) :
    IterResult :=
  match inp.send2 with
  | .ok => afterTry [errTracking contract emsg] ls inp
  | .exc m2 => ⟨[], ls, some (.crashed m2)⟩
  | .canc d => ⟨if d then [errTracking contract emsg] else [], ls, some .cancelled⟩

/-- A send inside the `try` block (lines 206-226): an Exception-class
failure falls to the outer handler; `CancelledError` escapes the loop. -/
def sendInTry (msg : String) (contract : String) (ls : LoopState) (inp : IterInput) :
    IterResult :=
  match inp.send1 with
  | .ok => afterTry [msg] ls inp
  | .exc m => outerHandler contract m ls inp
  | .canc d => ⟨if d then [msg] else [], ls, some .cancelled⟩

/-- Delivery of the success message (line 206), after the baseline was
already committed to `ls2`: a `ValueError`/`TypeError`-free failure of the
send is caught by the *outer* handler (the inner `except` catches only
those two classes). -/
def deliverMain (network contract : String) (nm : Option String) (ls2 : LoopState)
    (inp : IterInput) (pq fq vq cq : ℚ) : IterResult :=
  match inp.send1 with
  | .ok => afterTry
      [buildMessage network contract nm pq fq vq cq
        (ls2.initialPrice.getD pq) (ls2.initialFdv.getD fq)] ls2 inp
  | .exc m => outerHandler contract m ls2 inp
  | .canc d =>
    ⟨if d then
        [buildMessage network contract nm pq fq vq cq
          (ls2.initialPrice.getD pq) (ls2.initialFdv.getD fq)]
      else [], ls2, some .cancelled⟩

/-- One iteration of `_track_price`'s `while True` body (lines 131-234). -/
def runIteration (network contract : String) (ls : LoopState) (inp : IterInput) :
    IterResult :=
  match inp.fetch with
  | .canc => ⟨[], ls, some .cancelled⟩
  | .exc m => outerHandler contract m ls inp
  | .httpErr => sendInTry (errFetching contract) contract ls inp
  | .ok d =>
    match d.price_usd with
    | none => sendInTry (errNoPrice contract) contract ls inp
    | some praw =>
      match parse4 praw d.fdv_usd
          (match d.included with | [] => none | p :: _ => p.m5vol)
          (match d.included with | [] => none | p :: _ => p.m5pct) with
      | .error em => sendInTry (errFormatting contract em) contract ls inp
      | .ok (pq, fq, vq, cq) =>
        deliverMain network contract d.name
          (if ls.is_first_message then ⟨false, some pq, some fq⟩ else ls) inp pq fq vq cq

/-- The `while True` loop run against a finite trace of iteration
environments; it stops consuming inputs once an iteration halts. -/
def runLoop (network contract : String) :
    LoopState → List IterInput → List String × LoopState × Option StopKind
  | ls, [] => ([], ls, none)
  | ls, inp :: rest =>
    match (runIteration network contract ls inp).halt with
    | some h =>
      ((runIteration network contract ls inp).delivered,
       (runIteration network contract ls inp).state, some h)
    | none =>
      ((runIteration network contract ls inp).delivered
          ++ (runLoop network contract (runIteration network contract ls inp).state rest).1,
       (runLoop network contract (runIteration network contract ls inp).state rest).2.1,
       (runLoop network contract (runIteration network contract ls inp).state rest).2.2)

lemma runLoop_cons_halt {network contract : String} {ls : LoopState} {i : IterInput}
    {rest : List IterInput} {hk : StopKind}
    (h : (runIteration network contract ls i).halt = some hk) :
    runLoop network contract ls (i :: rest) =
      ((runIteration network contract ls i).delivered,
       (runIteration network contract ls i).state, some hk) := by
  simp only [runLoop]
  rw [h]

lemma runLoop_cons_ok {network contract : String} {ls : LoopState} {i : IterInput}
    {rest : List IterInput}
    (h : (runIteration network contract ls i).halt = none) :
    runLoop network contract ls (i :: rest) =
      ((runIteration network contract ls i).delivered
          ++ (runLoop network contract (runIteration network contract ls i).state rest).1,
       (runLoop network contract (runIteration network contract ls i).state rest).2.1,
       (runLoop network contract (runIteration network contract ls i).state rest).2.2) := by
  simp only [runLoop]
  rw [h]

/-- Inputs after a halting prefix are never consumed. -/
lemma runLoop_append_halt {network contract : String} {l1 l2 : List IterInput}
    {hk : StopKind} :
    ∀ {ls : LoopState}, (runLoop network contract ls l1).2.2 = some hk →
      runLoop network contract ls (l1 ++ l2) = runLoop network contract ls l1 := by
  induction l1 with
  | nil => intro ls h; simp [runLoop] at h
  | cons i t ih =>
    intro ls h
    cases hh : (runIteration network contract ls i).halt with
    | some hk2 =>
      rw [List.cons_append, runLoop_cons_halt hh, runLoop_cons_halt hh]
    | none =>
      rw [runLoop_cons_ok hh] at h
      rw [List.cons_append, runLoop_cons_ok hh, runLoop_cons_ok hh, ih h]

/-- Splitting a non-halting prefix off a run. -/
lemma runLoop_append_ok {network contract : String} {l1 l2 : List IterInput} :
    ∀ {ls : LoopState}, (runLoop network contract ls l1).2.2 = none →
      runLoop network contract ls (l1 ++ l2) =
        ((runLoop network contract ls l1).1
            ++ (runLoop network contract (runLoop network contract ls l1).2.1 l2).1,
         (runLoop network contract (runLoop network contract ls l1).2.1 l2).2.1,
         (runLoop network contract (runLoop network contract ls l1).2.1 l2).2.2) := by
  induction l1 with
  | nil => intro ls _; simp [runLoop]
  | cons i t ih =>
    intro ls h
    cases hh : (runIteration network contract ls i).halt with
    | some hk =>
      rw [runLoop_cons_halt hh] at h
      simp at h
    | none =>
      rw [runLoop_cons_ok hh] at h
      rw [List.cons_append, runLoop_cons_ok hh, runLoop_cons_ok hh, ih h]
      simp [List.append_assoc]

lemma afterTry_state (delivered : List String) (ls : LoopState) (inp : IterInput) :
    (afterTry delivered ls inp).state = ls := by
  unfold afterTry
  split <;> rfl

lemma outerHandler_state (contract emsg : String) (ls : LoopState) (inp : IterInput) :
    (outerHandler contract emsg ls inp).state = ls := by
  unfold outerHandler
  cases inp.send2 <;> simp [afterTry_state]

lemma sendInTry_state (msg contract : String) (ls : LoopState) (inp : IterInput) :
    (sendInTry msg contract ls inp).state = ls := by
  unfold sendInTry
  cases inp.send1 <;> simp [afterTry_state, outerHandler_state]

lemma deliverMain_state (network contract : String) (nm : Option String) (ls2 : LoopState)
    (inp : IterInput) (pq fq vq cq : ℚ) :
    (deliverMain network contract nm ls2 inp pq fq vq cq).state = ls2 := by
  unfold deliverMain
  cases inp.send1 <;> simp [afterTry_state, outerHandler_state]

/-- The only state change an iteration can make is writing the baseline on
the first successful parse (lines 168-171). -/
lemma runIteration_state (network contract : String) (ls : LoopState) (inp : IterInput) :
    (runIteration network contract ls inp).state = ls
    ∨ (ls.is_first_message = true
        ∧ ∃ a b, (runIteration network contract ls inp).state = ⟨false, some a, some b⟩) := by
  obtain ⟨f, s1, s2, cs⟩ := inp
  cases f with
  | canc => left; rfl
  | exc m => left; exact outerHandler_state _ _ _ _
  | httpErr => left; exact sendInTry_state _ _ _ _
  | ok d =>
    obtain ⟨pu, nm, fu, inc⟩ := d
    cases pu with
    | none => left; exact sendInTry_state _ _ _ _
    | some praw =>
      simp only [runIteration]
      cases hq : parse4 praw fu
          (match inc with | [] => none | p :: _ => p.m5vol)
          (match inc with | [] => none | p :: _ => p.m5pct) with
      | error em => left; exact sendInTry_state _ _ _ _
      | ok quad =>
        obtain ⟨pq, fq, vq, cq⟩ := quad
        by_cases hff : ls.is_first_message = true
        · right
          exact ⟨hff, pq, fq, by rw [deliverMain_state]; simp [hff]⟩
        · left
          rw [deliverMain_state]
          simp [hff]

lemma runIteration_state_not_first {network contract : String} {ls : LoopState}
    {inp : IterInput} (h : ls.is_first_message = false) :
    (runIteration network contract ls inp).state = ls := by
  rcases runIteration_state network contract ls inp with h1 | ⟨h2, _⟩
  · exact h1
  · rw [h] at h2
    exact absurd h2 (by simp)

lemma runLoop_state_not_first {network contract : String} {l : List IterInput}
    {ls : LoopState} (h : ls.is_first_message = false) :
    (runLoop network contract ls l).2.1 = ls := by
  induction l with
  | nil => rfl
  | cons i t ih =>
    cases hh : (runIteration network contract ls i).halt with
    | some hk =>
      rw [runLoop_cons_halt hh]
      exact runIteration_state_not_first h
    | none =>
      rw [runLoop_cons_ok hh, runIteration_state_not_first h]
      exact ih

/-- Every state reachable from the fresh loop state is the fresh state
itself or has `is_first_message = false`. -/
lemma runLoop_good (network contract : String) (l : List IterInput) :
    ∀ ls : LoopState, (runLoop network contract ls l).2.1 = ls
      ∨ (runLoop network contract ls l).2.1.is_first_message = false := by
  induction l with
  | nil => intro ls; left; rfl
  | cons i t ih =>
    intro ls
    cases hh : (runIteration network contract ls i).halt with
    | some hk =>
      rw [runLoop_cons_halt hh]
      rcases runIteration_state network contract ls i with h1 | ⟨_, a, b, h2⟩
      · left; exact h1
      · right; rw [h2]
    | none =>
      rw [runLoop_cons_ok hh]
      rcases ih (runIteration network contract ls i).state with h1 | h1
      · rcases runIteration_state network contract ls i with h2 | ⟨_, a, b, h2⟩
        · left; rw [h1, h2]
        · right; rw [h1, h2]
      · right; exact h1

/-- C3: once the loop state after some trace records a baseline price and
valuation, no extension of the trace — whatever the provider returns —
changes them: the baseline written on the first successful fetch persists
for the rest of the subscription's lifetime. -/
theorem C3_baseline_immutable (network contract : String)
    (inputs extra : List IterInput) (p f : ℚ)
    (hp : (runLoop network contract ⟨true, none, none⟩ inputs).2.1.initialPrice = some p)
    (hf : (runLoop network contract ⟨true, none, none⟩ inputs).2.1.initialFdv = some f) :
    (runLoop network contract ⟨true, none, none⟩ (inputs ++ extra)).2.1.initialPrice = some p
    ∧ (runLoop network contract ⟨true, none, none⟩ (inputs ++ extra)).2.1.initialFdv
        = some f := by
  have hff : (runLoop network contract ⟨true, none, none⟩ inputs).2.1.is_first_message
      = false := by
    rcases runLoop_good network contract inputs ⟨true, none, none⟩ with h | h
    · rw [h] at hp
      simp at hp
    · exact h
  cases hh : (runLoop network contract ⟨true, none, none⟩ inputs).2.2 with
  | some hk =>
    rw [runLoop_append_halt hh]
    exact ⟨hp, hf⟩
  | none =>
    rw [runLoop_append_ok hh]
    rw [runLoop_state_not_first hff]
    exact ⟨hp, hf⟩

/-- A successful fetch-and-deliver environment: HTTP 200 with a numeric
price and valuation, no pools, successful sends, no cancellation. -/
def okInput (pq fq : ℚ) : IterInput :=
  ⟨.ok ⟨some (.num pq), some "TOK", some (.num fq), []⟩, .ok, .ok, false⟩

/-- Witness for C3: a first fetch at price 5 / valuation 7, then a later
fetch at price 9 / valuation 11, which leaves the baseline untouched. -/
theorem C3_baseline_immutable_witness :
    (runLoop "eth" "0xabc" ⟨true, none, none⟩ [okInput 5 7]).2.1.initialPrice = some 5
    ∧ (runLoop "eth" "0xabc" ⟨true, none, none⟩
        ([okInput 5 7] ++ [okInput 9 11])).2.1.initialPrice = some 5
    ∧ (runLoop "eth" "0xabc" ⟨true, none, none⟩
        ([okInput 5 7] ++ [okInput 9 11])).2.1.initialFdv = some 7 := by
  have h := C3_baseline_immutable "eth" "0xabc" [okInput 5 7] [okInput 9 11] 5 7 rfl rfl
  exact ⟨rfl, h.1, h.2⟩

/-- C2: once an iteration observes cancellation — `CancelledError` is
raised at one of its `await` points and caught by no `except` clause — the
run halts there: the suffix of the trace is never consumed (no further
iteration starts, nothing further is sent), and cancellation delivered at
the fetch `await` means that iteration delivers nothing at all.  Combined
with `stop_tracking` cancelling the subscription's task (C1/C6) and
asyncio delivering `CancelledError` at the task's next resumption, no
message follows a returned `Stop`; a send in flight at the cancellation
point may still complete (`SendOut.canc true`). -/
theorem C2_cancellation (network contract : String) (ls : LoopState)
    (l1 : List IterInput) (i : IterInput) (l2 : List IterInput) :
    ((runLoop network contract ls l1).2.2 = none →
      (runIteration network contract (runLoop network contract ls l1).2.1 i).halt
        = some .cancelled →
      runLoop network contract ls (l1 ++ i :: l2) =
        ((runLoop network contract ls l1).1
            ++ (runIteration network contract (runLoop network contract ls l1).2.1 i).delivered,
         (runIteration network contract (runLoop network contract ls l1).2.1 i).state,
         some .cancelled))
    ∧ (i.fetch = .canc →
        runIteration network contract ls i = ⟨[], ls, some .cancelled⟩) := by
  constructor
  · intro h1 h2
    rw [runLoop_append_ok h1, runLoop_cons_halt h2]
  · intro h
    obtain ⟨f, s1, s2, cs⟩ := i
    simp only at h
    subst h
    rfl

/-- Witness for C2: one failed-fetch iteration, then cancellation at the
fetch await; the trailing input is never consumed. -/
theorem C2_cancellation_witness :
    runLoop "eth" "0xabc" ⟨true, none, none⟩
        ([⟨.httpErr, .ok, .ok, false⟩] ++ ⟨.canc, .ok, .ok, false⟩ :: [⟨.httpErr, .ok, .ok, false⟩])
      = ([errFetching "0xabc"], ⟨true, none, none⟩, some .cancelled)
    ∧ runIteration "eth" "0xabc" ⟨true, none, none⟩ ⟨.canc, .ok, .ok, false⟩
      = ⟨[], ⟨true, none, none⟩, some .cancelled⟩ := by
  have h := C2_cancellation "eth" "0xabc" ⟨true, none, none⟩
    [⟨.httpErr, .ok, .ok, false⟩] ⟨.canc, .ok, .ok, false⟩ [⟨.httpErr, .ok, .ok, false⟩]
  exact ⟨h.1 rfl rfl, h.2 rfl⟩

/-- C7 (amended): every iteration failure — non-200 status, exception
during fetch/parse, missing price, malformed numeric field, or a delivery
exception from any send inside the `try` (an error notice's send or the
main message's send) — is reported with a single error notice that embeds
the contract address and absorbed, the loop proceeding to the next interval
wait, *provided the delivery of the boundary error notice itself succeeds*:
a delivery exception inside the `try` falls to the outer handler, which
reports it as the per-contract `errTracking` notice (after a failed main
send the already-committed baseline survives).  When instead the boundary
notice's own send raises — on any path into the handler — the exception
escapes: the iteration halts with `crashed`, delivering nothing, and the
loop consumes no further input (the halting law).  The final conjunct is
the continuation law: an iteration that does not halt lets the loop consume
the rest of the trace. -/
theorem C7_failure_absorbed (network contract : String) (ls : LoopState)
    (m m2 em : String) (s1 s2 : SendOut) (nm : Option String) (fo : Option RawVal)
    (pools : List PoolData) (pq fq : ℚ) (cs : Bool) (i : IterInput)
    (rest : List IterInput) :
    runIteration network contract ls ⟨.httpErr, .ok, s2, false⟩
      = ⟨[errFetching contract], ls, none⟩
    ∧ runIteration network contract ls ⟨.exc m, s1, .ok, false⟩
      = ⟨[errTracking contract m], ls, none⟩
    ∧ runIteration network contract ls ⟨.ok ⟨none, nm, fo, pools⟩, .ok, s2, false⟩
      = ⟨[errNoPrice contract], ls, none⟩
    ∧ runIteration network contract ls ⟨.ok ⟨some (.mal em), nm, fo, pools⟩, .ok, s2, false⟩
      = ⟨[errFormatting contract em], ls, none⟩
    ∧ runIteration network contract ls ⟨.httpErr, .exc m, .ok, false⟩
      = ⟨[errTracking contract m], ls, none⟩
    ∧ runIteration network contract ls ⟨.ok ⟨none, nm, fo, pools⟩, .exc m, .ok, false⟩
      = ⟨[errTracking contract m], ls, none⟩
    ∧ runIteration network contract ls ⟨.ok ⟨some (.mal em), nm, fo, pools⟩, .exc m, .ok, false⟩
      = ⟨[errTracking contract m], ls, none⟩
    ∧ (parseOptFloat fo = .ok fq →
        runIteration network contract ls ⟨.ok ⟨some (.num pq), nm, fo, []⟩, .exc m, .ok, false⟩
          = ⟨[errTracking contract m],
             (if ls.is_first_message then ⟨false, some pq, some fq⟩ else ls), none⟩)
    ∧ runIteration network contract ls ⟨.exc m, s1, .exc m2, cs⟩
      = ⟨[], ls, some (.crashed m2)⟩
    ∧ runIteration network contract ls ⟨.httpErr, .exc m, .exc m2, cs⟩
      = ⟨[], ls, some (.crashed m2)⟩
    ∧ (parseOptFloat fo = .ok fq →
        runIteration network contract ls ⟨.ok ⟨some (.num pq), nm, fo, []⟩, .exc m, .exc m2, cs⟩
          = ⟨[], (if ls.is_first_message then ⟨false, some pq, some fq⟩ else ls),
             some (.crashed m2)⟩)
    ∧ errFetching contract = "Error fetching price for " ++ contract
    ∧ errNoPrice contract = "Could not fetch price for " ++ contract
    ∧ errFormatting contract em = "Error formatting data for " ++ contract ++ ": " ++ em
    ∧ errTracking contract m = "Error tracking " ++ contract ++ ": " ++ m
    ∧ ((runIteration network contract ls i).halt = some (.crashed m2) →
        runLoop network contract ls (i :: rest)
          = ((runIteration network contract ls i).delivered,
             (runIteration network contract ls i).state, some (.crashed m2)))
    ∧ ((runIteration network contract ls i).halt = none →
        runLoop network contract ls (i :: rest)
          = ((runIteration network contract ls i).delivered
              ++ (runLoop network contract (runIteration network contract ls i).state rest).1,
             (runLoop network contract (runIteration network contract ls i).state rest).2.1,
             (runLoop network contract (runIteration network contract ls i).state rest).2.2)) := by
  have hp4 : parseOptFloat fo = .ok fq → parse4 (.num pq) fo none none = .ok (pq, fq, 0, 0) := by
    intro hfo
    unfold parse4
    dsimp only [parseFloat]
    rw [hfo]
    rfl
  refine ⟨rfl, rfl, rfl, rfl, rfl, rfl, rfl, fun hfo => ?_, rfl, rfl, fun hfo => ?_,
    rfl, rfl, rfl, rfl, fun h => runLoop_cons_halt h, fun h => runLoop_cons_ok h⟩
  · simp only [runIteration]
    rw [hp4 hfo]
    rfl
  · simp only [runIteration]
    rw [hp4 hfo]
    rfl

/-- Witness for C7: at concrete inputs, a failed main-message send absorbed
as the `errTracking` notice (baseline kept, loop continues), the same send
failure followed by a failing boundary notice crashing the iteration, the
halting law stopping the loop at that crash, and the continuation law after
a failed-fetch iteration. -/
theorem C7_failure_absorbed_witness :
    parseOptFloat none = Except.ok (0 : ℚ)
    ∧ runIteration "eth" "0xabc" ⟨true, none, none⟩
        ⟨.ok ⟨some (.num 1), some "TOK", none, []⟩, .exc "chat blocked", .ok, false⟩
      = ⟨[errTracking "0xabc" "chat blocked"], ⟨false, some 1, some 0⟩, none⟩
    ∧ runIteration "eth" "0xabc" ⟨true, none, none⟩
        ⟨.ok ⟨some (.num 1), some "TOK", none, []⟩, .exc "chat blocked", .exc "down", false⟩
      = ⟨[], ⟨false, some 1, some 0⟩, some (.crashed "down")⟩
    ∧ runLoop "eth" "0xabc" ⟨true, none, none⟩
        (⟨.ok ⟨some (.num 1), some "TOK", none, []⟩, .exc "chat blocked", .exc "down", false⟩
          :: [⟨.httpErr, .ok, .ok, false⟩])
      = ((runIteration "eth" "0xabc" ⟨true, none, none⟩
            ⟨.ok ⟨some (.num 1), some "TOK", none, []⟩, .exc "chat blocked", .exc "down", false⟩).delivered,
         (runIteration "eth" "0xabc" ⟨true, none, none⟩
            ⟨.ok ⟨some (.num 1), some "TOK", none, []⟩, .exc "chat blocked", .exc "down", false⟩).state,
         some (.crashed "down"))
    ∧ runLoop "eth" "0xabc" ⟨true, none, none⟩
        (⟨.httpErr, .ok, .ok, false⟩ :: [⟨.httpErr, .ok, .ok, false⟩])
      = ((runIteration "eth" "0xabc" ⟨true, none, none⟩ ⟨.httpErr, .ok, .ok, false⟩).delivered
          ++ (runLoop "eth" "0xabc"
              (runIteration "eth" "0xabc" ⟨true, none, none⟩ ⟨.httpErr, .ok, .ok, false⟩).state
              [⟨.httpErr, .ok, .ok, false⟩]).1,
         (runLoop "eth" "0xabc"
            (runIteration "eth" "0xabc" ⟨true, none, none⟩ ⟨.httpErr, .ok, .ok, false⟩).state
            [⟨.httpErr, .ok, .ok, false⟩]).2.1,
         (runLoop "eth" "0xabc"
            (runIteration "eth" "0xabc" ⟨true, none, none⟩ ⟨.httpErr, .ok, .ok, false⟩).state
            [⟨.httpErr, .ok, .ok, false⟩]).2.2) := by
  refine ⟨rfl, ?_, ?_, ?_, ?_⟩
  · exact (C7_failure_absorbed "eth" "0xabc" ⟨true, none, none⟩ "chat blocked" "down" "em"
      .ok .ok (some "TOK") none [] 1 0 false
      ⟨.httpErr, .ok, .ok, false⟩ [⟨.httpErr, .ok, .ok, false⟩]).2.2.2.2.2.2.2.1 rfl
  · exact (C7_failure_absorbed "eth" "0xabc" ⟨true, none, none⟩ "chat blocked" "down" "em"
      .ok .ok (some "TOK") none [] 1 0 false
      ⟨.httpErr, .ok, .ok, false⟩ [⟨.httpErr, .ok, .ok, false⟩]).2.2.2.2.2.2.2.2.2.2.1 rfl
  · exact (C7_failure_absorbed "eth" "0xabc" ⟨true, none, none⟩ "chat blocked" "down" "em"
      .ok .ok (some "TOK") none [] 1 0 false
      ⟨.ok ⟨some (.num 1), some "TOK", none, []⟩, .exc "chat blocked", .exc "down", false⟩
      [⟨.httpErr, .ok, .ok, false⟩]).2.2.2.2.2.2.2.2.2.2.2.2.2.2.2.1 rfl
  · exact (C7_failure_absorbed "eth" "0xabc" ⟨true, none, none⟩ "chat blocked" "down" "em"
      .ok .ok (some "TOK") none [] 1 0 false
      ⟨.httpErr, .ok, .ok, false⟩ [⟨.httpErr, .ok, .ok, false⟩]).2.2.2.2.2.2.2.2.2.2.2.2.2.2.2.2 rfl

/-- Counterexample to C7 as stated: when the fetch raises and the error
notice's own `send_message` (line 228, outside any `try`) also raises, the
exception escapes the loop — the iteration halts with `crashed`, nothing is
delivered, and the rest of the trace is never processed.  So an iteration
failure *can* be fatal to its loop. -/
theorem C7_counterexample :
    (runIteration "eth" "0xabc" ⟨true, none, none⟩
        ⟨.exc "timeout", .ok, .exc "send failed", false⟩).halt
      = some (.crashed "send failed")
    ∧ (runLoop "eth" "0xabc" ⟨true, none, none⟩
        [⟨.exc "timeout", .ok, .exc "send failed", false⟩, ⟨.httpErr, .ok, .ok, false⟩]).1
      = []
    ∧ (runIteration "eth" "0xabc" ⟨true, none, none⟩
        ⟨.exc "timeout", .ok, .exc "send failed", false⟩).delivered = [] :=
  ⟨rfl, rfl, rfl⟩

/-- C8 (amended): a 200 response with a parseable price, an absent-or-
parseable valuation, and an *empty* included-pools array yields the normal
formatted message with the 5-minute volume and percentage passed as 0 — the
zero-equivalents render as `$0.0` (escaped `$0\.0`) and `0%` — not an error
notice; the empty array alone never takes the failure/no-data path.  (A
present but unparseable valuation takes the formatting-error path even with
a good price: see the counterexample.) -/
theorem C8_empty_pools (network contract : String) (ls : LoopState) (nm : Option String)
    (pq fq : ℚ) (fo : Option RawVal) (s2 : SendOut)
    (hfo : parseOptFloat fo = .ok fq) :
    runIteration network contract ls ⟨.ok ⟨some (.num pq), nm, fo, []⟩, .ok, s2, false⟩
      = ⟨[buildMessage network contract nm pq fq 0 0
            ((if ls.is_first_message then (⟨false, some pq, some fq⟩ : LoopState) else ls).initialPrice.getD pq)
            ((if ls.is_first_message then (⟨false, some pq, some fq⟩ : LoopState) else ls).initialFdv.getD fq)],
         (if ls.is_first_message then ⟨false, some pq, some fq⟩ else ls), none⟩
    ∧ pctString 0 = "0%"
    ∧ escape_markdown ("$" ++ format_large_number 0) = "$0\\.0" := by
  refine ⟨?_, ?_, ?_⟩
  · have hp4 : parse4 (.num pq) fo none none = .ok (pq, fq, 0, 0) := by
      unfold parse4
      dsimp only [parseFloat]
      rw [hfo]
      rfl
    simp only [runIteration]
    rw [hp4]
    rfl
  · unfold pctString
    rw [if_neg (fun h => h rfl)]
    decide
  · have h0 : format_large_number 0 = "0.0" := by
      unfold format_large_number
      rw [if_neg (by norm_num), if_neg (by norm_num), if_neg (by norm_num)]
      exact fmtFixed_eval_nonneg _ _ 0 _ (by norm_num) (by norm_num) (by decide)
    rw [h0]
    decide

/-- Witness for C8: a fresh subscription, price 1/2, valuation field
absent, empty pools — the normal message is delivered and the baseline is
recorded. -/
theorem C8_empty_pools_witness :
    parseOptFloat none = Except.ok (0 : ℚ)
    ∧ runIteration "eth" "0xabc" ⟨true, none, none⟩
        ⟨.ok ⟨some (.num (1 / 2)), some "TOK", none, []⟩, .ok, .ok, false⟩
      = ⟨[buildMessage "eth" "0xabc" (some "TOK") (1 / 2) 0 0 0 (1 / 2) 0],
         ⟨false, some (1 / 2), some 0⟩, none⟩ := by
  refine ⟨rfl, ?_⟩
  exact (C8_empty_pools "eth" "0xabc" ⟨true, none, none⟩ (some "TOK") (1 / 2) 0 none .ok
    rfl).1

/-- Counterexample to C8 as stated: price present and parseable and pools
empty, but the valuation field is present and unparseable — the iteration
delivers the formatting-error notice, not a normal message. -/
theorem C8_counterexample :
    (runIteration "eth" "0xabc" ⟨true, none, none⟩
        ⟨.ok ⟨some (.num 1), some "TOK", some (.mal "bad literal"), []⟩, .ok, .ok, false⟩).delivered
      = [errFormatting "0xabc" "bad literal"]
    ∧ (runIteration "eth" "0xabc" ⟨true, none, none⟩
        ⟨.ok ⟨some (.num 1), some "TOK", some (.mal "bad literal"), []⟩, .ok, .ok, false⟩).halt
      = none :=
  ⟨rfl, rfl⟩
